import Mathlib

/-!
Verification development for the Net-worth-App (src/app.py): a schema-driven
entry recorder backed by a SQLite `entries` table. This file gives a shallow
embedding of the data model (the taxonomy of asset/liability subcategory
schemas), the form-rendering of detail fields, the form-submit handlers, and
the database helpers (`insert_entry`, `get_totals`, `get_entries`), together
with theorems about them.

Modelling conventions:
- Python floats (amounts, number inputs) are modelled as `ℚ`.
- The SQLite table is a list of rows in insertion order; `AUTOINCREMENT` ids
  and the `CURRENT_TIMESTAMP` creation times are modelled by monotone counters
  carried in the `Store`.
- `json.dumps` / `json.loads` on the flat detail dictionary are modelled as a
  conversion to and from a JSON value tree (`JVal`).
- `ORDER BY created_at DESC` is modelled as an insertion sort by descending
  `created_at`.
- Python truthiness of an optional string argument (`if kind:`) is modelled by
  `pyTruthy`: `None` and `""` are falsy, every other string is truthy.
-/

/-- A field definition, exactly as the source's tuples
`(field_name, label, type_str)` in `ASSET_SCHEMAS` / `LIABILITY_SCHEMAS`. -/
abbrev FieldDef := String × String × String

/-- The ordered field list of one subcategory. -/
abbrev Schema := List FieldDef

/-- A taxonomy: category name → subcategory name → schema, in definition
order, as an association list (the Python dicts preserve insertion order). -/
abbrev Taxonomy := List (String × List (String × Schema))

/-- A detail value as produced by the form widgets: a string (text, select,
ISO date) or a number (`st.number_input` returns a float, modelled as `ℚ`). -/
inductive Value
  | s (v : String)
  | n (v : ℚ)
deriving Repr, DecidableEq

/-- A JSON value, the image of `json.dumps` on the detail dictionary. -/
inductive JVal
  | jstr (v : String)
  | jnum (v : ℚ)
  | jobj (fields : List (String × JVal))

/-- Serialisation (`json.dumps`) of a single detail value. -/
def Value.toJson : Value → JVal
  | .s v => .jstr v
  | .n v => .jnum v

/-- Serialisation `json.dumps(details)`: the flat dict becomes a JSON object. -/
def json_dumps (details : List (String × Value)) : JVal :=
  .jobj (details.map fun kv => (kv.1, kv.2.toJson))

/-- Read one primitive member back out of a JSON value. -/
def JVal.toValue : JVal → Option Value
  | .jstr v => some (.s v)
  | .jnum v => some (.n v)
  | .jobj _ => none

/-- Read the members of a JSON object back as a flat detail dictionary. -/
def json_loads_obj : List (String × JVal) → Option (List (String × Value))
  | [] => some []
  | (k, j) :: rest =>
      match j.toValue, json_loads_obj rest with
      | some v, some vs => some ((k, v) :: vs)
      | _, _ => none

/-- Deserialisation `json.loads`, specialised to the flat string-keyed detail shape. -/
def json_loads : JVal → Option (List (String × Value))
  | .jobj fields => json_loads_obj fields
  | _ => none

/-- One row of the `entries` table (`id, kind, category, subcategory, name,
currency, amount, owner, details_json, created_at`). -/
structure Row where
  id : Nat
  kind : String
  category : String
  subcategory : String
  name : String
  currency : String
  amount : ℚ
  owner : String
  details_json : JVal
  created_at : Nat

/-- The database state: the `entries` table plus the id counter and the
clock that stamps `created_at` (strictly increasing per insert). -/
structure Store where
  rows : List Row
  nextId : Nat
  clock : Nat

/-- The state of the database right after `init_db` on a fresh file. -/
def emptyStore : Store := { rows := [], nextId := 1, clock := 0 }

/-- The helper `insert_entry(kind, category, subcategory, name, currency, amount,
owner, details)`: unconditionally appends one row, serialising `details` with
`json.dumps`; id and creation time are assigned by the store. -/
def insert_entry (kind category subcategory name currency : String) (amount : ℚ)
    (owner : String) (details : List (String × Value)) (s : Store) : Store :=
  let newRow : Row :=
    { id := s.nextId, kind := kind, category := category,
      subcategory := subcategory, name := name, currency := currency,
      amount := amount, owner := owner, details_json := json_dumps details,
      created_at := s.clock }
  { rows := s.rows ++ [newRow], nextId := s.nextId + 1, clock := s.clock + 1 }

/-- The helper `get_totals()`: `(SUM(amount) WHERE kind='asset', SUM(amount) WHERE
kind='liability')`, each `COALESCE`d to 0 on an empty selection. -/
def get_totals (rows : List Row) : ℚ × ℚ :=
  (((rows.filter fun r => r.kind == "asset").map Row.amount).sum,
   ((rows.filter fun r => r.kind == "liability").map Row.amount).sum)

/-- Python truthiness of the optional string filter arguments of
`get_entries`: `None` (absent) and `""` are falsy. -/
def pyTruthy : Option String → Bool
  | none => false
  | some s => s != ""

/-- The WHERE clause built by `get_entries`: `AND kind=?` is added only when
the `kind` argument is truthy, likewise for `category`. -/
def rowMatches (kind category : Option String) (r : Row) : Bool :=
  (if pyTruthy kind then r.kind == kind.getD "" else true) &&
  (if pyTruthy category then r.category == category.getD "" else true)

/-- The row order of `ORDER BY created_at DESC`: row `a` may precede row `b` when `a` was
created no earlier than `b`. -/
def laterFirst (a b : Row) : Prop := b.created_at ≤ a.created_at

instance : DecidableRel laterFirst := fun _ _ => Nat.decLe _ _

instance : IsTotal Row laterFirst :=
  ⟨fun a b => (Nat.le_total a.created_at b.created_at).symm⟩

instance : IsTrans Row laterFirst :=
  ⟨fun _ _ _ hab hbc => Nat.le_trans hbc hab⟩

/-- The helper `get_entries(kind=None, category=None)`: select the rows matching the
truthy filters, ordered by `created_at` descending. -/
def get_entries (kind category : Option String) (rows : List Row) : List Row :=
  List.insertionSort laterFirst (rows.filter (rowMatches kind category))

/-- A calendar date as returned by `st.date_input`. -/
structure PyDate where
  year : Nat
  month : Nat
  day : Nat

/-- Zero-padding used by `date.isoformat`. -/
def pad2 (n : Nat) : String :=
  if n < 10 then "0" ++ toString n else toString n

/-- Python `date.isoformat()`: `YYYY-MM-DD`. -/
def PyDate.isoformat (d : PyDate) : String :=
  toString d.year ++ "-" ++ pad2 d.month ++ "-" ++ pad2 d.day

/-- The raw input a user has entered into the form widgets, keyed by the
widget's field name and label (mirroring the `key=f"{field_name}_{label}"`
widget keys): free text per text widget, a number per number widget, a date
per date widget, and a selection index per select widget. -/
structure UserInput where
  textVal : String → String → String
  numVal : String → String → ℚ
  dateVal : String → String → PyDate
  selIdx : String → String → Nat

/-- Widget `st.text_input`: returns the raw text, `""` when the user typed
nothing. -/
def st_text_input (ui : UserInput) (field_name label : String) : String :=
  ui.textVal field_name label

/-- Widget `st.number_input`: returns the entered number. -/
def st_number_input (ui : UserInput) (field_name label : String) : ℚ :=
  ui.numVal field_name label

/-- Widget `st.date_input`: returns the picked date. -/
def st_date_input (ui : UserInput) (field_name label : String) : PyDate :=
  ui.dateVal field_name label

/-- Widget `st.selectbox(label, options)`: the widget offers exactly `options` and
returns the one the user selected — it cannot return a value outside
`options` (for a nonempty option list). The user's choice is modelled as an
index reduced modulo the number of options. -/
def st_selectbox (options : List String) (choiceIdx : Nat) : String :=
  options.getD (choiceIdx % options.length) ""

/-- Python `s.startswith(pre)`, computed on the character list. -/
def pyStartsWith (s pre : String) : Bool :=
  s.toList.take pre.toList.length == pre.toList

/-- Python `s.split(sep)` for a one-character separator, computed on the
character list (as in Python, `"".split(sep) == [""]`). -/
def pySplit (s : String) (sep : Char) : List String :=
  (s.toList.splitOn sep).map fun cs => { data := cs }

/-- One iteration of the `render_detail_fields` loop: the widget for one
field, dispatched on `type_str`, assigned under the field's name. The option
list of a select field is `type_str.split(":", 1)[1].split(",")` — for a
string starting with `"select:"`, splitting on the first `":"` and taking
the second part is exactly dropping the 7-character prefix. -/
def render_field (ui : UserInput) (f : FieldDef) : String × Value :=
  let field_name := f.1
  let label := f.2.1
  let type_str := f.2.2
  if pyStartsWith type_str "select:" then
    (field_name, Value.s (st_selectbox (pySplit (type_str.drop 7) ',') (ui.selIdx field_name label)))
  else if type_str = "text" then
    (field_name, Value.s (st_text_input ui field_name label))
  else if type_str = "number" then
    (field_name, Value.n (st_number_input ui field_name label))
  else if type_str = "date" then
    (field_name, Value.s (PyDate.isoformat (st_date_input ui field_name label)))
  else
    (field_name, Value.s (st_text_input ui field_name label))

/-- The loop `render_detail_fields(schema)`: one widget per schema field; returns the
dict of values keyed by field name. The Python loop fills a dict with one
assignment per schema field; since each taxonomy schema has pairwise-distinct
keys the resulting dict is faithfully an association list in schema order,
modelled with `List.map`. -/
def render_detail_fields (ui : UserInput) (schema : Schema) : List (String × Value) :=
  schema.map (render_field ui)

/-- Outcome of a form submission: the `st.error` branch taken, or a
successful save. `errEmptyName` is the `"Please provide a ... name / label."`
error (the spec's `EmptyName`); `errNonPositiveAmount` is the
`"... must be greater than 0."` error (the spec's `NonPositiveAmount`). -/
inductive FormResult
  | errEmptyName
  | errNonPositiveAmount
  | saved
deriving Repr, DecidableEq

/-- The asset form submit handler (src/app.py lines 530-546): `if not name`
→ error; `elif amount <= 0` → error; else `insert_entry("asset", ...)`.
Returns the outcome and the resulting database state. -/
def submit_asset_form (category subcategory name currency : String) (amount : ℚ)
    (owner : String) (details : List (String × Value)) (s : Store) : FormResult × Store :=
  if name = "" then (.errEmptyName, s)
  else if amount ≤ 0 then (.errNonPositiveAmount, s)
  else (.saved, insert_entry "asset" category subcategory name currency amount owner details s)

/-- The liability form submit handler (src/app.py lines 591-607), identical
to the asset one except for the kind and messages. -/
def submit_liability_form (category subcategory name currency : String) (amount : ℚ)
    (owner : String) (details : List (String × Value)) (s : Store) : FormResult × Store :=
  if name = "" then (.errEmptyName, s)
  else if amount ≤ 0 then (.errNonPositiveAmount, s)
  else (.saved, insert_entry "liability" category subcategory name currency amount owner details s)

/-- Dict indexing `ASSET_SCHEMAS[category][subcategory]` as a partial lookup. -/
def lookupSchema (t : Taxonomy) (category subcategory : String) : Option Schema :=
  match t.lookup category with
  | some subs => subs.lookup subcategory
  | none => none

/-- Pairwise distinctness of the field keys of one schema. -/
def distinctKeys : Schema → Bool
  | [] => true
  | f :: rest => (!(rest.any fun g => g.1 == f.1)) && distinctKeys rest

/-- Every schema of the taxonomy has pairwise-distinct field keys. -/
def taxonomyKeysDistinct (t : Taxonomy) : Bool :=
  t.all fun c => c.2.all fun sc => distinctKeys sc.2

/-- The asset taxonomy `ASSET_SCHEMAS` (src/app.py lines 24-256),
transcribed verbatim: category → subcategory → field tuples. -/
def ASSET_SCHEMAS : Taxonomy := [
 ("Cash & Cash-like", [
   ("Cash (local currency)", [
    ("bank", "Bank / provider", "text"),
    ("account_type", "Account type", "select:Current,Savings"),
    ("account_nickname", "Account nickname", "text"),
    ("account_number", "Account number (masked)", "text"),
    ("interest_rate", "Interest rate (%)", "number"),
    ("liquidity", "Liquidity", "select:Instant,1-3 days,Term")]),
   ("Cash (foreign currency)", [
    ("bank", "Bank / provider", "text"),
    ("country", "Country", "text"),
    ("currency_held", "Currency held", "text"),
    ("account_nickname", "Account nickname", "text")]),
   ("Savings / Deposit account", [
    ("bank", "Bank / provider", "text"),
    ("account_type", "Account type", "select:Savings,Fixed/Term"),
    ("tenor", "Tenor / lock-in (months)", "number"),
    ("maturity_date", "Maturity date", "date"),
    ("interest_rate", "Interest rate (%)", "number")]),
   ("Money market / cash fund", [
    ("provider", "Fund / provider", "text"),
    ("isin", "ISIN / code", "text")])]),
 ("Listed Investments", [
   ("Direct stocks / equities", [
    ("ticker", "Ticker", "text"),
    ("exchange", "Exchange / market", "text"),
    ("broker", "Broker / platform", "text"),
    ("shares", "Number of shares", "number"),
    ("purchase_price", "Average purchase price per share", "number"),
    ("purchase_date", "Main purchase date", "date"),
    ("current_price", "Current price per share", "number")]),
   ("Index funds / ETFs", [
    ("ticker", "Ticker", "text"),
    ("exchange", "Exchange", "text"),
    ("units", "Units held", "number"),
    ("purchase_price", "Average purchase price per unit", "number"),
    ("current_price", "Current price per unit", "number")]),
   ("Mutual funds / unit trusts", [
    ("fund_name", "Fund name", "text"),
    ("isin", "ISIN / code", "text"),
    ("units", "Units held", "number"),
    ("nav", "Latest NAV per unit", "number"),
    ("statement_date", "Latest statement date", "date")]),
   ("REITs", [
    ("ticker", "Ticker", "text"),
    ("exchange", "Exchange", "text"),
    ("units", "Units held", "number"),
    ("current_price", "Current price per unit", "number"),
    ("yield_pct", "Distribution yield (%)", "number")])]),
 ("Real Estate & Land", [
   ("Primary residence", [
    ("country", "Country", "text"),
    ("city", "City/Region", "text"),
    ("address", "Full address", "text"),
    ("registration_no", "Title / registration / survey number", "text"),
    ("property_type", "Property type", "select:Condo,House,Apartment,Other"),
    ("tenure", "Tenure", "select:Freehold,99-year,Leasehold,Other"),
    ("area_sqft", "Area (sq ft)", "number"),
    ("acquisition_date", "Acquisition date", "date"),
    ("purchase_price", "Purchase price", "number")]),
   ("Investment property", [
    ("country", "Country", "text"),
    ("city", "City/Region", "text"),
    ("address", "Full address", "text"),
    ("registration_no", "Title / registration / survey number", "text"),
    ("property_type", "Property type", "select:Condo,Shop,Office,Warehouse,Other"),
    ("tenure", "Tenure", "select:Freehold,99-year,Leasehold,Other"),
    ("area_sqft", "Area (sq ft)", "number"),
    ("acquisition_date", "Acquisition date", "date"),
    ("purchase_price", "Purchase price", "number"),
    ("annual_rent", "Annual gross rent", "number")]),
   ("Land plot", [
    ("country", "Country", "text"),
    ("city", "City/Region", "text"),
    ("location_desc", "Location description", "text"),
    ("survey_no", "Survey / plot number", "text"),
    ("area_sqft", "Area (sq ft)", "number")])]),
 ("Retirement & Employment-linked", [
   ("Public pension / provident", [
    ("scheme_name", "Scheme name (e.g. CPF, EPF)", "text"),
    ("account_id", "Member / account ID", "text"),
    ("retirement_age", "Retirement age", "number")]),
   ("401k / occupational plan", [
    ("plan_name", "Plan name", "text"),
    ("provider", "Plan provider", "text"),
    ("account_id", "Account ID", "text"),
    ("vested_pct", "Vested %", "number")]),
   ("Gratuity / end-of-service", [
    ("employer", "Employer", "text"),
    ("country", "Country", "text"),
    ("years_service", "Years of service", "number")]),
   ("Stock options / RSUs", [
    ("employer", "Employer", "text"),
    ("plan_type", "Plan type", "select:RSU,Option,ESPP,PSU"),
    ("grant_date", "Grant date", "date"),
    ("vesting_schedule", "Vesting schedule (text)", "text")])]),
 ("Insurance Assets", [
   ("Whole life / UL policy", [
    ("insurer", "Insurer", "text"),
    ("policy_number", "Policy number", "text"),
    ("life_assured", "Life assured", "text"),
    ("sum_assured", "Sum assured / face value", "number"),
    ("start_date", "Policy start date", "date"),
    ("maturity_date", "Maturity date (if any)", "date")]),
   ("Endowment policy", [
    ("insurer", "Insurer", "text"),
    ("policy_number", "Policy number", "text"),
    ("maturity_date", "Maturity date", "date")]),
   ("Investment-linked policy (ILP)", [
    ("insurer", "Insurer", "text"),
    ("policy_number", "Policy number", "text"),
    ("fund_allocation", "Funds allocation (summary)", "text")]),
   ("Annuity", [
    ("insurer", "Insurer", "text"),
    ("start_date", "Payout start date", "date"),
    ("payout_amount", "Periodic payout amount", "number")])]),
 ("Private Market Investments", [
   ("PE / VC fund", [
    ("fund_name", "Fund name", "text"),
    ("manager", "Manager / GP", "text"),
    ("vehicle_type", "Vehicle type", "select:PE Fund,VC Fund,Private Credit,Hedge Fund"),
    ("commitment", "Total commitment", "number"),
    ("capital_called", "Capital called to date", "number"),
    ("distributions", "Distributions received", "number"),
    ("vintage_year", "Vintage year", "number")]),
   ("Direct / co-investment", [
    ("company", "Company / asset name", "text"),
    ("jurisdiction", "Jurisdiction", "text"),
    ("stake_pct", "Stake %", "number"),
    ("capital_invested", "Capital invested", "number")])]),
 ("Business & Professional Interests", [
   ("Private company shares", [
    ("company", "Company name", "text"),
    ("jurisdiction", "Jurisdiction", "text"),
    ("entity_type", "Entity type", "text"),
    ("stake_pct", "Stake %", "number")]),
   ("Partnership / LLP interest", [
    ("entity_name", "Entity name", "text"),
    ("role", "Role (Partner / Member)", "text")]),
   ("Franchise rights", [
    ("brand", "Franchise brand", "text"),
    ("territory", "Territory", "text")])]),
 ("Digital & Crypto Assets", [
   ("Cryptocurrency", [
    ("token", "Token (e.g. BTC, ETH)", "text"),
    ("wallet", "Wallet / exchange", "text"),
    ("quantity", "Quantity", "number"),
    ("reference_price", "Reference price", "number")]),
   ("NFT / digital collectible", [
    ("collection", "Collection / project", "text"),
    ("token_id", "Token ID", "text"),
    ("platform", "Platform", "text")]),
   ("Website / online business", [
    ("url", "Website / platform URL", "text"),
    ("last12_rev", "Last 12m revenue", "number")])]),
 ("Luxury & Collectible Assets", [
   ("Art / painting", [
    ("artist", "Artist", "text"),
    ("title", "Title of work", "text"),
    ("year", "Year", "number"),
    ("certificate", "Certificate / provenance", "text")]),
   ("Watch / jewellery", [
    ("brand", "Brand", "text"),
    ("model", "Model / reference", "text"),
    ("serial", "Serial number", "text")]),
   ("Car / vehicle", [
    ("make", "Make", "text"),
    ("model", "Model", "text"),
    ("year", "Year", "number"),
    ("registration", "Registration number", "text")])]),
 ("Claims & Receivables", [
   ("Loan to individual", [
    ("counterparty", "Borrower name", "text"),
    ("purpose", "Purpose", "text"),
    ("agreement_no", "Loan agreement reference", "text"),
    ("interest_rate", "Interest rate (%)", "number"),
    ("due_date", "Due date", "date")]),
   ("Loan to company", [
    ("counterparty", "Company name", "text"),
    ("purpose", "Purpose", "text"),
    ("interest_rate", "Interest rate (%)", "number")]),
   ("Tax refund receivable", [
    ("jurisdiction", "Jurisdiction", "text"),
    ("tax_year", "Tax year", "text")]),
   ("Security deposit", [
    ("counterparty", "Counterparty / landlord", "text"),
    ("purpose", "Purpose (rental, utilities, etc.)", "text")])])]

/-- The liability taxonomy `LIABILITY_SCHEMAS` (src/app.py lines 258-365),
transcribed verbatim. -/
def LIABILITY_SCHEMAS : Taxonomy := [
 ("Home & Property Loans", [
   ("Home mortgage (primary residence)", [
    ("lender", "Lender / bank", "text"),
    ("loan_type", "Loan type", "select:Amortising,Interest-only"),
    ("interest_rate", "Interest rate (%)", "number"),
    ("rate_type", "Rate type", "select:Fixed,Floating"),
    ("start_date", "Start date", "date"),
    ("maturity_date", "Maturity date", "date"),
    ("linked_property", "Linked property (name / ID)", "text"),
    ("monthly_instalment", "Monthly instalment", "number")]),
   ("Investment property loan", [
    ("lender", "Lender / bank", "text"),
    ("interest_rate", "Interest rate (%)", "number"),
    ("linked_property", "Linked property (name / ID)", "text")]),
   ("Construction / renovation loan", [
    ("lender", "Lender / bank", "text"),
    ("purpose", "Purpose", "text")])]),
 ("Personal Debt", [
   ("Credit card", [
    ("issuer", "Issuer", "text"),
    ("card_last4", "Card number (last 4)", "text"),
    ("credit_limit", "Credit limit", "number"),
    ("apr", "Annual interest rate (%)", "number"),
    ("due_date", "Payment due date", "date")]),
   ("Personal loan", [
    ("lender", "Lender", "text"),
    ("purpose", "Purpose", "text"),
    ("interest_rate", "Interest rate (%)", "number"),
    ("start_date", "Start date", "date"),
    ("maturity_date", "Maturity date", "date")]),
   ("BNPL / instalment plan", [
    ("provider", "Provider", "text"),
    ("item", "Item / purchase", "text"),
    ("installment_amount", "Installment amount", "number"),
    ("last_payment_date", "Last payment date", "date")])]),
 ("Business & Professional Liabilities", [
   ("Business term loan", [
    ("borrowing_entity", "Borrowing entity", "text"),
    ("lender", "Lender", "text"),
    ("interest_rate", "Interest rate (%)", "number"),
    ("maturity_date", "Maturity date", "date"),
    ("security", "Security / collateral", "text")]),
   ("Working capital / overdraft", [
    ("borrowing_entity", "Borrowing entity", "text"),
    ("lender", "Lender", "text")]),
   ("Trade finance", [
    ("borrowing_entity", "Borrowing entity", "text"),
    ("instrument_type", "Instrument type (LC, BG, etc.)", "text")])]),
 ("Investment & Trading Leverage", [
   ("Margin loan", [
    ("broker", "Broker", "text"),
    ("account_id", "Account ID", "text"),
    ("collateral_value", "Collateral value", "number")]),
   ("Securities-backed lending", [
    ("bank", "Bank", "text"),
    ("facility_limit", "Facility limit", "number")])]),
 ("Tax Liabilities", [
   ("Income tax payable", [
    ("jurisdiction", "Jurisdiction", "text"),
    ("tax_year", "Tax year", "text"),
    ("due_date", "Due date", "date")]),
   ("Capital gains tax", [
    ("jurisdiction", "Jurisdiction", "text"),
    ("tax_year", "Tax year", "text")]),
   ("Property tax", [
    ("jurisdiction", "Jurisdiction", "text"),
    ("property_ref", "Property reference", "text")])]),
 ("Deferred & Instalment Obligations", [
   ("Instalment purchase", [
    ("counterparty", "Counterparty", "text"),
    ("item", "Item / service", "text")]),
   ("Deferred purchase price", [
    ("counterparty", "Counterparty", "text"),
    ("description", "Description", "text")])]),
 ("Other Payables & Accrued Expenses", [
   ("Accrued expense", [
    ("counterparty", "Counterparty", "text"),
    ("description", "Description", "text")]),
   ("Unpaid rent / utilities", [
    ("counterparty", "Counterparty", "text"),
    ("period", "Period", "text")])])]

/-- `ASSET_CATEGORIES = list(ASSET_SCHEMAS.keys())`. -/
def ASSET_CATEGORIES : List String := ASSET_SCHEMAS.map fun c => c.1

/-- `LIABILITY_CATEGORIES = list(LIABILITY_SCHEMAS.keys())`. -/
def LIABILITY_CATEGORIES : List String := LIABILITY_SCHEMAS.map fun c => c.1

section Helpers

/-- Association-list lookup success implies membership of the pair. -/
theorem mem_of_lookup_eq_some {β : Type} {l : List (String × β)} {k : String} {v : β}
    (h : l.lookup k = some v) : (k, v) ∈ l := by
  induction l with
  | nil => simp [List.lookup] at h
  | cons p rest ih =>
    obtain ⟨a, b⟩ := p
    cases hka : (k == a) with
    | true =>
      rw [List.lookup, hka] at h
      obtain rfl : b = v := by simpa using h
      obtain rfl : k = a := by simpa using hka
      exact List.mem_cons_self _ _
    | false =>
      rw [List.lookup, hka] at h
      exact List.mem_cons_of_mem _ (ih h)

/-- Soundness of `distinctKeys`: it implies `Nodup` of the key list. -/
theorem nodup_keys_of_distinctKeys {s : Schema} (h : distinctKeys s = true) :
    (s.map fun f => f.1).Nodup := by
  induction s with
  | nil => simp
  | cons f rest ih =>
    rw [distinctKeys, Bool.and_eq_true] at h
    obtain ⟨h1, h2⟩ := h
    rw [List.map_cons, List.nodup_cons]
    refine ⟨?_, ih h2⟩
    intro hmem
    rw [List.mem_map] at hmem
    obtain ⟨g, hg, hge⟩ := hmem
    rw [Bool.not_eq_true', List.any_eq_false] at h1
    exact absurd (by simpa using hge) (by simpa using h1 g hg)

end Helpers

/-- C4: for every (kind, category, subcategory) triple present in the
taxonomy (`ASSET_SCHEMAS` or `LIABILITY_SCHEMAS`), the resolved schema's
field keys are pairwise distinct. -/
theorem schema_keys_nodup (category subcategory : String) (schema : Schema)
    (h : lookupSchema ASSET_SCHEMAS category subcategory = some schema ∨
         lookupSchema LIABILITY_SCHEMAS category subcategory = some schema) :
    (schema.map fun f => f.1).Nodup := by
  have hall : ∀ t : Taxonomy, taxonomyKeysDistinct t = true →
      lookupSchema t category subcategory = some schema →
      (schema.map fun f => f.1).Nodup := by
    intro t ht hl
    unfold lookupSchema at hl
    cases hsubs : t.lookup category with
    | none => rw [hsubs] at hl; cases hl
    | some subs =>
      rw [hsubs] at hl
      have hmem1 := mem_of_lookup_eq_some hsubs
      have hmem2 := mem_of_lookup_eq_some hl
      rw [taxonomyKeysDistinct, List.all_eq_true] at ht
      have hsub := ht _ hmem1
      rw [List.all_eq_true] at hsub
      exact nodup_keys_of_distinctKeys (hsub _ hmem2)
  cases h with
  | inl h => exact hall ASSET_SCHEMAS (by decide) h
  | inr h => exact hall LIABILITY_SCHEMAS (by decide) h

/-- Witness for C4 at the triple (asset, Cash & Cash-like, Cash (local currency)). -/
theorem schema_keys_nodup_witness :
    ((((lookupSchema ASSET_SCHEMAS "Cash & Cash-like" "Cash (local currency)").getD []).map
      fun f => f.1)).Nodup :=
  schema_keys_nodup "Cash & Cash-like" "Cash (local currency)" _ (Or.inl (by decide))

/-- C5: `get_entries` returns the matching rows most-recently-created first:
the result is sorted by descending creation time, is a permutation of the
rows passing the conjunction of the truthy filters, a row is in the result
iff it is in the table and matches both filters, and with no filters every
row of the table is returned. -/
theorem get_entries_spec (kind category : Option String) (rows : List Row) :
    (get_entries kind category rows).Sorted laterFirst ∧
    (get_entries kind category rows).Perm (rows.filter (rowMatches kind category)) ∧
    (∀ r, r ∈ get_entries kind category rows ↔
      r ∈ rows ∧ rowMatches kind category r = true) ∧
    (∀ r, r ∈ get_entries none none rows ↔ r ∈ rows) := by
  refine ⟨List.sorted_insertionSort _ _, List.perm_insertionSort _ _, ?_, ?_⟩
  · intro r
    rw [get_entries, List.mem_insertionSort, List.mem_filter]
  · intro r
    rw [get_entries, List.mem_insertionSort, List.mem_filter]
    simp [rowMatches, pyTruthy]

/-- C6: totals over the empty store are (0, 0); after one asset of amount
100 and one liability of amount 40, totals are (100, 40) and the dashboard's
net worth, total assets minus total liabilities, is 60. -/
theorem totals_smoke :
    get_totals emptyStore.rows = (0, 0) ∧
    get_totals (insert_entry "liability" "Personal Debt" "Personal loan" "Loan" "SGD" 40 "You" []
        (insert_entry "asset" "Listed Investments" "Direct stocks / equities" "Shares" "SGD" 100
          "You" [] emptyStore)).rows = (100, 40) ∧
    (get_totals (insert_entry "liability" "Personal Debt" "Personal loan" "Loan" "SGD" 40 "You" []
        (insert_entry "asset" "Listed Investments" "Direct stocks / equities" "Shares" "SGD" 100
          "You" [] emptyStore)).rows).1 -
      (get_totals (insert_entry "liability" "Personal Debt" "Personal loan" "Loan" "SGD" 40 "You" []
        (insert_entry "asset" "Listed Investments" "Direct stocks / equities" "Shares" "SGD" 100
          "You" [] emptyStore)).rows).2 = 60 := by
  have h1 : ("liability" == "asset") = false := by decide
  have h2 : ("asset" == "liability") = false := by decide
  have h3 : ("asset" == "asset") = true := by decide
  have h4 : ("liability" == "liability") = true := by decide
  refine ⟨by decide, ?_, ?_⟩ <;>
    norm_num [get_totals, insert_entry, emptyStore, List.filter, h1, h2, h3, h4]

/-- C9: `insert_entry` validates nothing: for every argument tuple and every
store state — any amount (zero or negative included), any name (empty
included), any (kind, category, subcategory) whether or not it resolves in
the taxonomy — it appends exactly one row carrying those values verbatim. -/
theorem insert_entry_no_validation (kind category subcategory name currency : String)
    (amount : ℚ) (owner : String) (details : List (String × Value)) (s : Store) :
    (insert_entry kind category subcategory name currency amount owner details s).rows =
      s.rows ++
        [{ id := s.nextId, kind := kind, category := category,
           subcategory := subcategory, name := name, currency := currency,
           amount := amount, owner := owner, details_json := json_dumps details,
           created_at := s.clock }] := rfl

/-- C10: a falsy (empty-string) filter argument behaves exactly like an
absent filter: `get_entries` adds no WHERE clause for it, so all entries are
returned rather than only those with empty kind or category. -/
theorem get_entries_empty_string_filter (kindf catf : Option String) (rows : List Row) :
    get_entries (some "") catf rows = get_entries none catf rows ∧
    get_entries kindf (some "") rows = get_entries kindf none rows ∧
    (∀ r, r ∈ get_entries (some "") (some "") rows ↔ r ∈ rows) := by
  refine ⟨rfl, rfl, ?_⟩
  intro r
  rw [get_entries, List.mem_insertionSort, List.mem_filter]
  simp [rowMatches, pyTruthy]

/-- Deserialisation inverts the member-wise serialisation of a flat detail
dictionary. -/
theorem json_loads_obj_dumps (details : List (String × Value)) :
    json_loads_obj (details.map fun kv => (kv.1, kv.2.toJson)) = some details := by
  induction details with
  | nil => rfl
  | cons kv rest ih =>
    obtain ⟨k, v⟩ := kv
    rw [List.map_cons, json_loads_obj, ih]
    cases v <;> rfl

/-- Deserialisation `json.loads` inverts `json.dumps` on flat detail dictionaries. -/
theorem json_dumps_loads (details : List (String × Value)) :
    json_loads (json_dumps details) = some details := by
  rw [json_dumps, json_loads]
  exact json_loads_obj_dumps details

/-- C8: round-trip — appending any entry and then querying with no filters
yields a row carrying every submitted field exactly: kind, category,
subcategory, name, currency, amount, owner, and a details payload that
deserialises (`json.loads`) back to exactly the serialised detail dict. -/
theorem append_then_query_roundtrip (kind category subcategory name currency : String)
    (amount : ℚ) (owner : String) (details : List (String × Value)) (s : Store) :
    ∃ r : Row,
      r ∈ get_entries none none
        (insert_entry kind category subcategory name currency amount owner details s).rows ∧
      r.kind = kind ∧ r.category = category ∧ r.subcategory = subcategory ∧
      r.name = name ∧ r.currency = currency ∧ r.amount = amount ∧ r.owner = owner ∧
      json_loads r.details_json = some details := by
  refine ⟨{ id := s.nextId, kind := kind, category := category, subcategory := subcategory,
            name := name, currency := currency, amount := amount, owner := owner,
            details_json := json_dumps details, created_at := s.clock }, ?_,
          rfl, rfl, rfl, rfl, rfl, rfl, rfl, json_dumps_loads details⟩
  rw [get_entries, List.mem_insertionSort, List.mem_filter]
  refine ⟨?_, rfl⟩
  show _ ∈ s.rows ++ [_]
  simp

/-- C1 counterexample: a submission with amount 0 (≤ 0) and an empty name
reports EmptyName, not NonPositiveAmount — the name check runs first. -/
theorem nonpositive_amount_not_always_that_error :
    (0 : ℚ) ≤ 0 ∧
    (submit_asset_form "Cash & Cash-like" "Cash (local currency)" "" "SGD" 0 "You" []
      emptyStore).1 = .errEmptyName ∧
    (submit_asset_form "Cash & Cash-like" "Cash (local currency)" "" "SGD" 0 "You" []
      emptyStore).1 ≠ .errNonPositiveAmount := by
  refine ⟨le_refl 0, rfl, by decide⟩

/-- C1 (amended): for every submission with amount ≤ 0, on either form, no
entry is appended (the store is unchanged), and whenever the name is
non-empty the reported failure is NonPositiveAmount (an empty name is
reported as EmptyName first). -/
theorem submit_nonpositive_amount_rejected (category subcategory name currency : String)
    (amount : ℚ) (owner : String) (details : List (String × Value)) (s : Store)
    (hamt : amount ≤ 0) :
    ((submit_asset_form category subcategory name currency amount owner details s).2 = s ∧
      (name ≠ "" →
        (submit_asset_form category subcategory name currency amount owner details s).1 =
          .errNonPositiveAmount)) ∧
    ((submit_liability_form category subcategory name currency amount owner details s).2 = s ∧
      (name ≠ "" →
        (submit_liability_form category subcategory name currency amount owner details s).1 =
          .errNonPositiveAmount)) := by
  unfold submit_asset_form submit_liability_form
  by_cases hname : name = "" <;> simp [hname, hamt]

/-- Witness for C1 (amended) at a non-empty name and amount 0. -/
theorem submit_nonpositive_amount_rejected_witness :
    ((submit_asset_form "Cash & Cash-like" "Cash (local currency)" "x" "SGD" 0 "You" []
        emptyStore).2 = emptyStore ∧
      ("x" ≠ "" →
        (submit_asset_form "Cash & Cash-like" "Cash (local currency)" "x" "SGD" 0 "You" []
          emptyStore).1 = .errNonPositiveAmount)) ∧
    ((submit_liability_form "Cash & Cash-like" "Cash (local currency)" "x" "SGD" 0 "You" []
        emptyStore).2 = emptyStore ∧
      ("x" ≠ "" →
        (submit_liability_form "Cash & Cash-like" "Cash (local currency)" "x" "SGD" 0 "You" []
          emptyStore).1 = .errNonPositiveAmount)) :=
  submit_nonpositive_amount_rejected "Cash & Cash-like" "Cash (local currency)" "x" "SGD" 0
    "You" [] emptyStore (le_refl 0)

/-- C2 counterexample: the name `" "` consists only of whitespace — it is
empty after trimming surrounding whitespace (every character is whitespace)
yet non-empty as a raw string — so it passes the `if not name` check: with a
positive amount the entry is persisted and no EmptyName failure occurs. -/
theorem whitespace_name_accepted :
    (" ".toList.all Char.isWhitespace ∧ " " ≠ "") ∧
    (submit_asset_form "Cash & Cash-like" "Cash (local currency)" " " "SGD" 5 "You" []
      emptyStore).1 = .saved ∧
    (submit_asset_form "Cash & Cash-like" "Cash (local currency)" " " "SGD" 5 "You" []
      emptyStore).2.rows.length = 1 := by
  refine ⟨⟨by decide, by decide⟩, by decide, by decide⟩

/-- C2 (amended): a submitted name equal to the empty string fails with
EmptyName on either form and nothing is persisted; EmptyName is reported
only for the exactly-empty name (no whitespace trimming is applied). -/
theorem submit_empty_name_rejected (category subcategory name currency : String)
    (amount : ℚ) (owner : String) (details : List (String × Value)) (s : Store) :
    (name = "" →
      (submit_asset_form category subcategory name currency amount owner details s).1 =
          .errEmptyName ∧
        (submit_asset_form category subcategory name currency amount owner details s).2 = s ∧
        (submit_liability_form category subcategory name currency amount owner details s).1 =
          .errEmptyName ∧
        (submit_liability_form category subcategory name currency amount owner details s).2 = s) ∧
    (name ≠ "" →
      (submit_asset_form category subcategory name currency amount owner details s).1 ≠
          .errEmptyName ∧
        (submit_liability_form category subcategory name currency amount owner details s).1 ≠
          .errEmptyName) := by
  unfold submit_asset_form submit_liability_form
  by_cases hname : name = "" <;> by_cases hamt : amount ≤ 0 <;> simp [hname, hamt]

/-- Witness for C2 (amended) at the empty name and at a non-empty name. -/
theorem submit_empty_name_rejected_witness :
    ((submit_asset_form "c" "sc" "" "SGD" 5 "You" [] emptyStore).1 = .errEmptyName ∧
      (submit_asset_form "c" "sc" "" "SGD" 5 "You" [] emptyStore).2 = emptyStore ∧
      (submit_liability_form "c" "sc" "" "SGD" 5 "You" [] emptyStore).1 = .errEmptyName ∧
      (submit_liability_form "c" "sc" "" "SGD" 5 "You" [] emptyStore).2 = emptyStore) ∧
    ((submit_asset_form "c" "sc" "x" "SGD" 5 "You" [] emptyStore).1 ≠ .errEmptyName ∧
      (submit_liability_form "c" "sc" "x" "SGD" 5 "You" [] emptyStore).1 ≠ .errEmptyName) :=
  ⟨(submit_empty_name_rejected "c" "sc" "" "SGD" 5 "You" [] emptyStore).1 rfl,
   (submit_empty_name_rejected "c" "sc" "x" "SGD" 5 "You" [] emptyStore).2 (by decide)⟩

/-- The member names of a serialised detail object. -/
def jkeys : JVal → List String
  | .jobj fields => fields.map Prod.fst
  | _ => []

/-- A concrete all-defaults form input, used to instantiate theorems. -/
def uiConst : UserInput :=
  { textVal := fun _ _ => "", numVal := fun _ _ => 0,
    dateVal := fun _ _ => { year := 2026, month := 1, day := 1 }, selIdx := fun _ _ => 0 }

/-- The schema of Asset / Cash & Cash-like / Cash (local currency). -/
def cashLocalSchema : Schema :=
  (lookupSchema ASSET_SCHEMAS "Cash & Cash-like" "Cash (local currency)").getD []

/-- Rendering one field keeps the field's key. -/
theorem render_field_fst (ui : UserInput) (f : FieldDef) :
    (render_field ui f).1 = f.1 := by
  rw [render_field]
  repeat' split
  all_goals rfl

/-- The key list of the rendered detail dict is exactly the schema's key
list (in order); in particular a text field left empty is still present,
bound to `Value.s ""`. -/
theorem render_detail_fields_keys (ui : UserInput) (schema : Schema) :
    (render_detail_fields ui schema).map Prod.fst = schema.map fun f => f.1 := by
  induction schema with
  | nil => rfl
  | cons f rest ih =>
    simp only [render_detail_fields, List.map_cons] at ih ⊢
    rw [render_field_fst, ih]

/-- The member names of a serialised detail dict are its keys. -/
theorem jkeys_json_dumps (d : List (String × Value)) :
    jkeys (json_dumps d) = d.map Prod.fst := by
  rw [json_dumps, jkeys, List.map_map]
  rfl

/-- C3: for every successfully created entry, the member names of its
persisted details object are exactly the field keys of the schema resolved
from the taxonomy for its (kind, category, subcategory) — no extra keys, no
missing keys. Fields whose raw text input is empty are still present (bound
to the empty string), since `st.text_input` returns `""` verbatim. -/
theorem saved_entry_details_keys (ui : UserInput) (category subcategory name currency : String)
    (amount : ℚ) (owner : String) (schema : Schema) (s : Store) (r : Row) :
    (lookupSchema ASSET_SCHEMAS category subcategory = some schema →
      (submit_asset_form category subcategory name currency amount owner
        (render_detail_fields ui schema) s).1 = .saved →
      (submit_asset_form category subcategory name currency amount owner
        (render_detail_fields ui schema) s).2.rows = s.rows ++ [r] →
      jkeys r.details_json = schema.map fun f => f.1) ∧
    (lookupSchema LIABILITY_SCHEMAS category subcategory = some schema →
      (submit_liability_form category subcategory name currency amount owner
        (render_detail_fields ui schema) s).1 = .saved →
      (submit_liability_form category subcategory name currency amount owner
        (render_detail_fields ui schema) s).2.rows = s.rows ++ [r] →
      jkeys r.details_json = schema.map fun f => f.1) := by
  constructor
  · intro _ hsaved hrows
    by_cases hname : name = ""
    · simp [submit_asset_form, hname] at hsaved
    · by_cases hamt : amount ≤ 0
      · simp [submit_asset_form, hname, hamt] at hsaved
      · simp only [submit_asset_form, if_neg hname, if_neg hamt, insert_entry] at hrows
        have h1 := List.append_cancel_left hrows
        have h2 := (List.cons.injEq _ _ _ _).mp h1
        rw [← h2.1]
        exact (jkeys_json_dumps _).trans (render_detail_fields_keys ui schema)
  · intro _ hsaved hrows
    by_cases hname : name = ""
    · simp [submit_liability_form, hname] at hsaved
    · by_cases hamt : amount ≤ 0
      · simp [submit_liability_form, hname, hamt] at hsaved
      · simp only [submit_liability_form, if_neg hname, if_neg hamt, insert_entry] at hrows
        have h1 := List.append_cancel_left hrows
        have h2 := (List.cons.injEq _ _ _ _).mp h1
        rw [← h2.1]
        exact (jkeys_json_dumps _).trans (render_detail_fields_keys ui schema)

/-- Witness for C3: a saved Cash (local currency) asset with all-default
inputs carries exactly the six schema keys. -/
theorem saved_entry_details_keys_witness :
    jkeys (json_dumps (render_detail_fields uiConst cashLocalSchema)) =
      cashLocalSchema.map fun f => f.1 :=
  (saved_entry_details_keys uiConst "Cash & Cash-like" "Cash (local currency)" "DBS Savings"
      "SGD" 5000 "You" cashLocalSchema emptyStore
      { id := 1, kind := "asset", category := "Cash & Cash-like",
        subcategory := "Cash (local currency)", name := "DBS Savings", currency := "SGD",
        amount := 5000, owner := "You",
        details_json := json_dumps (render_detail_fields uiConst cashLocalSchema),
        created_at := 0 }).1 (by decide) rfl rfl

/-- C7 counterexample: there is no InvalidChoice validation path — a
submission whose details carry liquidity="Weekly" (not among the declared
choices Instant, 1-3 days, Term of that field) with a valid name and amount
is saved and persisted rather than rejected. -/
theorem invalid_choice_not_rejected :
    (submit_asset_form "Cash & Cash-like" "Cash (local currency)" "DBS Savings" "SGD" 5000 "You"
      [("liquidity", Value.s "Weekly")] emptyStore).1 = .saved ∧
    (submit_asset_form "Cash & Cash-like" "Cash (local currency)" "DBS Savings" "SGD" 5000 "You"
      [("liquidity", Value.s "Weekly")] emptyStore).2.rows.length = 1 := by
  refine ⟨by decide, by decide⟩

/-- The select widget's value always lies in its option list. -/
theorem st_selectbox_mem (options : List String) (i : Nat) (hne : options ≠ []) :
    st_selectbox options i ∈ options := by
  rw [st_selectbox]
  have hlen : 0 < options.length := List.length_pos.mpr hne
  have hm : i % options.length < options.length := Nat.mod_lt i hlen
  rw [List.getD_eq_getElem _ _ hm]
  exact List.getElem_mem _

/-- C7 (amended): the code rejects nothing as InvalidChoice; instead a
Choice field is rendered as a select widget whose value is necessarily one
of the declared choices, so an out-of-set raw value such as "Weekly" can
never be produced by the form: any selectbox value lies in its option list,
and the rendered liquidity value of Cash (local currency) is always
Instant, 1-3 days, or Term. -/
theorem select_widget_value_in_choices (ui : UserInput) (options : List String) (i : Nat)
    (hne : options ≠ []) :
    st_selectbox options i ∈ options ∧
    ∀ v : Value, ("liquidity", v) ∈ render_detail_fields ui cashLocalSchema →
      v = Value.s "Instant" ∨ v = Value.s "1-3 days" ∨ v = Value.s "Term" := by
  refine ⟨st_selectbox_mem options i hne, ?_⟩
  intro v hv
  have hr : render_detail_fields ui cashLocalSchema =
      [("bank", Value.s (ui.textVal "bank" "Bank / provider")),
       ("account_type", Value.s (st_selectbox ["Current", "Savings"]
          (ui.selIdx "account_type" "Account type"))),
       ("account_nickname", Value.s (ui.textVal "account_nickname" "Account nickname")),
       ("account_number", Value.s (ui.textVal "account_number" "Account number (masked)")),
       ("interest_rate", Value.n (ui.numVal "interest_rate" "Interest rate (%)")),
       ("liquidity", Value.s (st_selectbox ["Instant", "1-3 days", "Term"]
          (ui.selIdx "liquidity" "Liquidity")))] := rfl
  rw [hr] at hv
  simp only [List.mem_cons, List.not_mem_nil, or_false, Prod.mk.injEq] at hv
  have hmem : st_selectbox ["Instant", "1-3 days", "Term"] (ui.selIdx "liquidity" "Liquidity")
      ∈ (["Instant", "1-3 days", "Term"] : List String) :=
    st_selectbox_mem _ _ (by decide)
  simp only [List.mem_cons, List.not_mem_nil, or_false] at hmem
  rcases hv with ⟨h, _⟩ | ⟨h, _⟩ | ⟨h, _⟩ | ⟨h, _⟩ | ⟨h, _⟩ | ⟨_, hv⟩
  · exact absurd h (by decide)
  · exact absurd h (by decide)
  · exact absurd h (by decide)
  · exact absurd h (by decide)
  · exact absurd h (by decide)
  · rcases hmem with h1 | h1 | h1
    · exact Or.inl (hv.trans (congrArg Value.s h1))
    · exact Or.inr (Or.inl (hv.trans (congrArg Value.s h1)))
    · exact Or.inr (Or.inr (hv.trans (congrArg Value.s h1)))

/-- Witness for C7 (amended) at the option list of the liquidity field and
index 0. -/
theorem select_widget_value_in_choices_witness :
    st_selectbox ["Instant", "1-3 days", "Term"] 0 ∈ (["Instant", "1-3 days", "Term"] : List String) ∧
    ∀ v : Value, ("liquidity", v) ∈ render_detail_fields uiConst cashLocalSchema →
      v = Value.s "Instant" ∨ v = Value.s "1-3 days" ∨ v = Value.s "Term" :=
  select_widget_value_in_choices uiConst ["Instant", "1-3 days", "Term"] 0 (by decide)
